import Mathlib

/-!
Shallow embedding of the `mixer-chat` ChatSocket connection state machine
(src/socket/chat.ts) and its supporting subsystems: endpoint rotation,
spool queue, call correlator, keepalive probing.  Machine state is modelled
as an explicit record; event-handler bodies become pure functions from the
record to a record plus a description of the externally visible effects
(emitted events, transport operations, timer operations).
-/

namespace MixerChat

/-- SocketState records the status of the websocket connection
(enum SocketState in chat.ts). -/
inductive SocketState
  | Idle
  | Connecting
  | Connected
  | Closing
  | Closed
  | Reconnecting
  | Refreshing
deriving DecidableEq, Repr

/-- Arguments carried by an outbound method packet: either plain call
arguments (abstracted) or a saved auth triple (channelId, userId, authKey). -/
inductive CallArgsData
  | plain (a : List Nat)
  | authArgs (a : Nat × Option Nat × Option String)
deriving DecidableEq, Repr

/-- The data object handed to `send`: `{ type: 'method', method, arguments, id }`,
with `arguments`/`id` abstracted into `args`. -/
structure MethodPacket where
  method : String
  args : CallArgsData
deriving DecidableEq, Repr

/-- ISpooledMethod: `{ resolve, data }`; the resolution handle is modelled
by a numeric identity. -/
structure SpooledMethod where
  resolveId : Nat
  data : MethodPacket
deriving DecidableEq, Repr

/-- JS `Map.set`: replace the value in place when the key is present
(insertion order is kept), otherwise append a fresh entry. -/
def queueSet (q : List (String × SpooledMethod)) (k : String) (v : SpooledMethod) :
    List (String × SpooledMethod) :=
  match q with
  | [] => [(k, v)]
  | (k', v') :: rest => if k' = k then (k, v) :: rest else (k', v') :: queueSet rest k v

/-- JS `Map.delete`: remove the (unique) entry with the given key. -/
def queueDelete (q : List (String × SpooledMethod)) (k : String) :
    List (String × SpooledMethod) :=
  match q with
  | [] => []
  | (k', v') :: rest => if k' = k then rest else (k', v') :: queueDelete rest k

/-- JS `Map.get`. -/
def queueLookup (q : List (String × SpooledMethod)) (k : String) : Option SpooledMethod :=
  match q with
  | [] => none
  | (k', v') :: rest => if k' = k then some v' else queueLookup rest k

/-- The mutable fields of a ChatSocket instance that the lifecycle claims
depend on.  Transport instances are identified by generation numbers:
`socketGen` is the generation of the transport currently held in
`this.socket` (`none` before the first `boot()`), `nextGen` is the next
fresh generation, and `listenersGen` is the generation of the transport
whose event handlers were attached by `boot()`. -/
structure ChatSocket where
  state : SocketState
  endpoints : List String
  endpointOffset : Nat
  socketGen : Option Nat
  listenersGen : Option Nat
  nextGen : Nat
  queue : List (String × SpooledMethod)
  authPacket : Option (Nat × Option Nat × Option String)
  autoReconnect : Bool
deriving DecidableEq, Repr

/-- `isConnected()`: `this.state === SocketState.Connected`. -/
def isConnected (c : ChatSocket) : Bool :=
  c.state = SocketState.Connected

/-- The offset update inside `getAddress()`:
`if (++this.endpointOffset >= this.endpoints.length) { this.endpointOffset = 0; }`. -/
def nextOffset (n o : Nat) : Nat :=
  if o + 1 ≥ n then 0 else o + 1

/-- `getAddress()`: advance the rotation offset, then return the endpoint at
the new offset (as `Option`, `none` playing the role of `undefined`). -/
def getAddress (c : ChatSocket) : Option String × ChatSocket :=
  let o := nextOffset c.endpoints.length c.endpointOffset
  (c.endpoints.get? o, { c with endpointOffset := o })

/-- The rotation offset after `k` successive `getAddress()` calls. -/
def offsetAfter (n o : Nat) : Nat → Nat
  | 0 => o
  | k + 1 => nextOffset n (offsetAfter n o k)

/-- `boot()` (part_002): FIRST constructs a new transport and installs it
(`const ws = this.socket = new Socket(this.getAddress());`), then checks for
`Closing` — in which case it moves to `Refreshing` and returns before
attaching any handlers; otherwise it moves to `Connecting` and attaches the
handlers to the new transport. -/
def boot (c : ChatSocket) : ChatSocket :=
  let c1 := (getAddress c).2
  let g := c1.nextGen
  let c2 := { c1 with socketGen := some g, nextGen := g + 1 }
  if c2.state = SocketState.Closing then
    { c2 with state := SocketState.Refreshing }
  else
    { c2 with state := SocketState.Connecting, listenersGen := some g }

/-- Externally visible effects of the public `close()` method. -/
structure CloseResult where
  sock : ChatSocket
  emitted : List String
  transportCloseRequested : Bool
  reconnectTimerCleared : Bool
  pingTimerCleared : Bool
deriving Repr

/-- `close()`: if a transport exists, ask it to close and move to `Closing`;
otherwise clear both timers and move straight to `Closed`.  No event is
emitted on either branch. -/
def close (c : ChatSocket) : CloseResult :=
  if c.socketGen.isSome then
    { sock := { c with state := SocketState.Closing }
      emitted := []
      transportCloseRequested := true
      reconnectTimerCleared := false
      pingTimerCleared := false }
  else
    { sock := { c with state := SocketState.Closed }
      emitted := []
      transportCloseRequested := false
      reconnectTimerCleared := true
      pingTimerCleared := true }

/-- Externally visible effects of the constructor's `'close'` event handler. -/
structure CloseEvOutcome where
  sock : ChatSocket
  emitted : List String
  reconnectTimerArmed : Bool
  timersCleared : Bool
  bootedImmediately : Bool
deriving Repr

/-- The `'close'` handler registered in the constructor: `Refreshing` goes to
`Idle` and boots at once; `Closing` goes to `Closed`, emits `closed` and
clears both timers; otherwise, with `autoReconnect` off the handler returns
with the state untouched, and with it on the state becomes `Reconnecting`,
`reconnecting` is emitted and the reconnect timer is armed. -/
def closeHandler (c : ChatSocket) : CloseEvOutcome :=
  if c.state = SocketState.Refreshing then
    { sock := boot { c with state := SocketState.Idle }
      emitted := []
      reconnectTimerArmed := false
      timersCleared := false
      bootedImmediately := true }
  else if c.state = SocketState.Closing then
    { sock := { c with state := SocketState.Closed }
      emitted := ["closed"]
      reconnectTimerArmed := false
      timersCleared := true
      bootedImmediately := false }
  else if c.autoReconnect = false then
    { sock := c
      emitted := []
      reconnectTimerArmed := false
      timersCleared := false
      bootedImmediately := false }
  else
    { sock := { c with state := SocketState.Reconnecting }
      emitted := ["reconnecting"]
      reconnectTimerArmed := true
      timersCleared := false
      bootedImmediately := false }

/-- Outcome of `send(data, options)` as seen by its caller. -/
inductive SendOutcome
  | sentNow
  | spooled
  | resolvedNoSend
deriving DecidableEq, Repr

/-- Result of `send`: the updated instance, the caller-visible outcome and
the events emitted during the call. -/
structure SendResult where
  sock : ChatSocket
  outcome : SendOutcome
  emitted : List String
deriving Repr

/-- `send(data, options)`: if connected or `options.force`, the packet goes
straight to the transport and the promise resolves; else, when the method is
not `auth`, the entry is put in the spool queue under the method name
(`this.queue.set(data.method, { resolve, data })`) and `spooled` is emitted;
`auth` payloads are never spooled and the promise resolves at once. -/
def send (c : ChatSocket) (data : MethodPacket) (resolveId : Nat) (force : Bool) :
    SendResult :=
  if isConnected c ∨ force then
    { sock := c, outcome := SendOutcome.sentNow, emitted := ["debug"] }
  else if data.method ≠ "auth" then
    { sock := { c with queue := queueSet c.queue data.method ⟨resolveId, data⟩ }
      outcome := SendOutcome.spooled
      emitted := ["spooled"] }
  else
    { sock := c, outcome := SendOutcome.resolvedNoSend, emitted := [] }

/-- Primitive externally visible steps taken by `unSpool()` and the flush
routine, in execution order. -/
inductive Action
  | sendPacket (p : MethodPacket)
  | resolveEntry (r : Nat)
  | deleteKey (k : String)
  | emitEv (e : String)
  | setStateConnected
  | closeConn
deriving DecidableEq, Repr

/-- The method packet built by `this.call('auth', this.authPacket, ...)`. -/
def authMethodPacket (ap : Nat × Option Nat × Option String) : MethodPacket :=
  { method := "auth", args := CallArgsData.authArgs ap }

/-- The per-entry body of `sendPackets` inside `unSpool`: for each queue
entry in insertion order, send its data with `force`, invoke its resolution
handle, and delete the entry from the queue. -/
def spoolFlushActions : List (String × SpooledMethod) → List Action
  | [] => []
  | (k, v) :: rest =>
      Action.sendPacket v.data :: Action.resolveEntry v.resolveId ::
        Action.deleteKey k :: spoolFlushActions rest

/-- `sendPackets`: drain the whole queue, then set the state to `Connected`
and emit `connected`. -/
def sendPackets (q : List (String × SpooledMethod)) : List Action :=
  spoolFlushActions q ++ [Action.setStateConnected, Action.emitEv "connected"]

/-- `unSpool()` as the trace of its steps, driven by whether the re-auth
call's reply succeeds: with a saved auth packet the auth request is sent
first (with `force`, inside `call`); on success `authResult` is emitted and
the queue drains; on failure an error is emitted and `close()` is invoked.
Without a saved auth packet the queue drains immediately. -/
def unSpool (authPacket : Option (Nat × Option Nat × Option String))
    (q : List (String × SpooledMethod)) (authSuccess : Bool) : List Action :=
  match authPacket with
  | some ap =>
      Action.sendPacket (authMethodPacket ap) ::
        (if authSuccess then
          Action.emitEv "authResult" :: sendPackets q
        else
          [Action.emitEv "error", Action.closeConn])
  | none => sendPackets q

/-- Effect of one action on the spool queue (only `deleteKey` touches it). -/
def applyAction (q : List (String × SpooledMethod)) : Action → List (String × SpooledMethod)
  | Action.deleteKey k => queueDelete q k
  | _ => q

/-- Queue contents after running a list of actions. -/
def applyActions (q : List (String × SpooledMethod)) (as : List Action) :
    List (String × SpooledMethod) :=
  as.foldl applyAction q

/-- The packets sent over the transport along a trace, in order. -/
def sendsOf (as : List Action) : List MethodPacket :=
  as.filterMap fun a =>
    match a with
    | Action.sendPacket p => some p
    | _ => none

/-- The resolution handles invoked along a trace, in order. -/
def resolvesOf (as : List Action) : List Nat :=
  as.filterMap fun a =>
    match a with
    | Action.resolveEntry r => some r
    | _ => none

/-- Caller-visible result of `auth(channelId, userId, authKey)`. -/
inductive AuthCallResult
  | immediateCall
  | pendingOnAuthResult
deriving DecidableEq, Repr

/-- `auth()`: record the credentials in `this.authPacket`; when connected,
perform the request/reply call now; otherwise return a promise whose only
settlement path is `this.once('authResult', resolve)` — no rejection handle
is ever registered for it. -/
def authOp (c : ChatSocket) (channelId : Nat) (userId : Option Nat)
    (authKey : Option String) : ChatSocket × AuthCallResult :=
  let c' := { c with authPacket := some (channelId, userId, authKey) }
  if isConnected c' then (c', AuthCallResult.immediateCall)
  else (c', AuthCallResult.pendingOnAuthResult)

/-- The handle returned by `auth()` while disconnected resolves exactly when
an `authResult` event fires; it has no rejection path. -/
def authHandleResolved (trace : List Action) : Bool :=
  trace.contains (Action.emitEv "authResult")

/-- Externally visible effects of one run of the keepalive probe `ping()`. -/
structure PingResult where
  probeSent : Bool
  failedWithTimeout : Bool
  errorEmitted : Bool
  socketClosed : Bool
  timerReset : Bool
deriving DecidableEq, Repr

/-- `ping()`: when not connected, throw `TimeoutError` at once (no probe);
when connected, send the probe and race the `pong` against
`timeout(pingTimeout)`: a pong in time resets the idle timer, a timeout is
caught, an error is emitted and the transport is told to close. -/
def ping (st : SocketState) (pongWithinTimeout : Bool) : PingResult :=
  if ¬ (st = SocketState.Connected) then
    { probeSent := false, failedWithTimeout := true, errorEmitted := false
      socketClosed := false, timerReset := false }
  else if pongWithinTimeout then
    { probeSent := true, failedWithTimeout := false, errorEmitted := false
      socketClosed := false, timerReset := true }
  else
    { probeSent := true, failedWithTimeout := false, errorEmitted := true
      socketClosed := true, timerReset := false }

/-- The correlator map `this.replies`: a JS object keyed by the numeric call
id, holding the identity of the pending `Reply` handle. -/
def Correlator : Type := Nat → Option Nat

/-- `this.replies[id] = new Reply(resolve, reject)`. -/
def repliesSet (m : Correlator) (id h : Nat) : Correlator :=
  fun k => if k = id then some h else m k

/-- `delete this.replies[id]`. -/
def repliesDelete (m : Correlator) (id : Nat) : Correlator :=
  fun k => if k = id then none else m k

/-- A parsed wire packet (the tagged union of §4.5). -/
inductive Packet
  | reply (id : Nat) (isError : Bool)
  | event (name : String) (data : Nat)
  | unknown (t : String)
deriving DecidableEq, Repr

/-- An inbound frame before parsing: a binary frame, unparseable text, or a
successfully parsed packet. -/
inductive InFrame
  | binaryFrame
  | malformed
  | parsed (p : Packet)
deriving DecidableEq, Repr

/-- Events emitted by `parsePacket`. -/
inductive Emitted
  | errorBinary
  | errorParse
  | errorNoHandler
  | errorUnknown (t : String)
  | debugIn (p : Packet)
  | namedEvent (name : String) (data : Nat)
deriving DecidableEq, Repr

/-- Result of `parsePacket`: the correlator after the frame, the events
emitted, and the reply handle invoked (with whether it was rejected),
if any. -/
structure ParseResult where
  replies : Correlator
  emitted : List Emitted
  handleInvoked : Option (Nat × Bool)

/-- `parsePacket(data, flags)`: binary frames and unparseable text yield an
error emission and nothing else; a parsed packet is first emitted on
`debug`; a `reply` with a registered pending entry invokes that handle
(rejecting when the packet carries an error) and deletes the entry, an
unmatched `reply` emits a no-handler error; an `event` is re-emitted under
its name; any other tag emits an unknown-packet error. -/
def parsePacket (replies : Correlator) (f : InFrame) : ParseResult :=
  match f with
  | InFrame.binaryFrame => ⟨replies, [Emitted.errorBinary], none⟩
  | InFrame.malformed => ⟨replies, [Emitted.errorParse], none⟩
  | InFrame.parsed p =>
      match p with
      | Packet.reply id isErr =>
          match replies id with
          | some h => ⟨repliesDelete replies id, [Emitted.debugIn p], some (h, isErr)⟩
          | none => ⟨replies, [Emitted.debugIn p, Emitted.errorNoHandler], none⟩
      | Packet.event name data =>
          ⟨replies, [Emitted.debugIn p, Emitted.namedEvent name data], none⟩
      | Packet.unknown t =>
          ⟨replies, [Emitted.debugIn p, Emitted.errorUnknown t], none⟩

/-- Caller-visible outcome of `call()`. -/
inductive CallOutcome
  | resolvedNoReply
  | replySettled (rejected : Bool)
  | timedOut
deriving DecidableEq, Repr

/-- The continuation of `call()` after `send` resolves, driven by which
branch of the race settles first: with `options.noReply` the call resolves
at once and the correlator is untouched; a reply settling first passes its
outcome through; the timeout winning rejects the call with `TimeoutError`,
whose catch deletes the pending entry and rethrows. -/
def callSettle (replies : Correlator) (id : Nat) (noReply : Bool)
    (replyBeforeTimeout : Option Bool) : Correlator × CallOutcome :=
  if noReply then (replies, CallOutcome.resolvedNoReply)
  else
    match replyBeforeTimeout with
    | some isErr => (replies, CallOutcome.replySettled isErr)
    | none => (repliesDelete replies id, CallOutcome.timedOut)

/-- A socket whose graceful close is still pending (`Closing`) with one
transport generation already live. -/
def sampleC1 : ChatSocket :=
  { state := SocketState.Closing, endpoints := ["wss://a", "wss://b"], endpointOffset := 0
    socketGen := some 0, listenersGen := some 0, nextGen := 1, queue := []
    authPacket := none, autoReconnect := true }

/-- A freshly constructed socket with a single endpoint. -/
def sampleC2 : ChatSocket :=
  { state := SocketState.Idle, endpoints := ["wss://a"], endpointOffset := 0
    socketGen := none, listenersGen := none, nextGen := 0, queue := []
    authPacket := none, autoReconnect := true }

/-- A socket with no transport instance (never booted). -/
def sampleC3 : ChatSocket :=
  { state := SocketState.Reconnecting, endpoints := ["wss://a"], endpointOffset := 0
    socketGen := none, listenersGen := none, nextGen := 0, queue := []
    authPacket := none, autoReconnect := true }

/-- A disconnected socket with an empty spool queue. -/
def sampleC5 : ChatSocket :=
  { state := SocketState.Idle, endpoints := ["wss://a"], endpointOffset := 0
    socketGen := none, listenersGen := none, nextGen := 0, queue := []
    authPacket := none, autoReconnect := true }

/-- A connected socket with automatic reconnection disabled. -/
def sampleC7 : ChatSocket :=
  { state := SocketState.Connected, endpoints := ["wss://a"], endpointOffset := 0
    socketGen := some 0, listenersGen := some 0, nextGen := 1, queue := []
    authPacket := none, autoReconnect := false }

/-- A disconnected socket about to authenticate. -/
def sampleC9 : ChatSocket :=
  { state := SocketState.Idle, endpoints := ["wss://a"], endpointOffset := 0
    socketGen := none, listenersGen := none, nextGen := 0, queue := []
    authPacket := none, autoReconnect := true }

theorem nextOffset_eq_mod (n o : Nat) (h : o < n) : nextOffset n o = (o + 1) % n := by
  unfold nextOffset
  by_cases h1 : o + 1 ≥ n
  · have h2 : o + 1 = n := by omega
    simp [h1, h2, Nat.mod_self]
  · have h2 : o + 1 < n := by omega
    simp [h1, Nat.mod_eq_of_lt h2]

theorem offsetAfter_eq_mod (n o : Nat) (h : o < n) (k : Nat) :
    offsetAfter n o k = (o + k) % n := by
  induction k with
  | zero => simp [offsetAfter, Nat.mod_eq_of_lt h]
  | succ k ih =>
      have hn : 0 < n := Nat.lt_of_le_of_lt (Nat.zero_le o) h
      rw [offsetAfter, ih, nextOffset_eq_mod n _ (Nat.mod_lt _ hn), Nat.mod_add_mod,
        Nat.add_assoc]

theorem offsetAfter_inj (n o : Nat) (h : o < n) (i j : Nat) (hi : i < n) (hj : j < n)
    (heq : offsetAfter n o (i + 1) = offsetAfter n o (j + 1)) : i = j := by
  rw [offsetAfter_eq_mod n o h, offsetAfter_eq_mod n o h] at heq
  have h2 : (o + 1 + i) % n = (o + 1 + j) % n := by
    have e1 : o + (i + 1) = o + 1 + i := by omega
    have e2 : o + (j + 1) = o + 1 + j := by omega
    rw [e1, e2] at heq
    exact heq
  have h3 : i ≡ j [MOD n] := Nat.ModEq.add_left_cancel' (o + 1) h2
  have h4 : i % n = j % n := h3
  rwa [Nat.mod_eq_of_lt hi, Nat.mod_eq_of_lt hj] at h4

/-- C1: the claim that `boot()` during `Closing` moves to `Refreshing`
WITHOUT creating a second transport is false: on the sample socket the new
transport generation is installed before the `Closing` check. -/
theorem c1_counterexample :
    ¬ ((boot sampleC1).state = SocketState.Refreshing ∧
       (boot sampleC1).socketGen = sampleC1.socketGen) := by
  decide

/-- C1 (amended): if `boot()` is invoked while the state is `Closing`, the
state becomes `Refreshing`, but a fresh transport has already been
constructed and installed (consuming one endpoint rotation); no handlers
are attached to it and the deferred reconnect is left to the close-event
handler's `Refreshing` branch. -/
theorem c1_boot_while_closing (c : ChatSocket) (h : c.state = SocketState.Closing) :
    (boot c).state = SocketState.Refreshing ∧
    (boot c).socketGen = some c.nextGen ∧
    (boot c).nextGen = c.nextGen + 1 ∧
    (boot c).listenersGen = c.listenersGen ∧
    (boot c).endpointOffset = nextOffset c.endpoints.length c.endpointOffset := by
  simp [boot, getAddress, h]

theorem c1_boot_while_closing_witness :
    sampleC1.state = SocketState.Closing ∧
    (boot sampleC1).state = SocketState.Refreshing ∧
    (boot sampleC1).socketGen = some sampleC1.nextGen :=
  ⟨by decide, (c1_boot_while_closing sampleC1 (by decide)).1,
    (c1_boot_while_closing sampleC1 (by decide)).2.1⟩

/-- C2: the clause that the first `getAddress()` call never returns the
initial rotation offset is false for a single-endpoint list: on the sample
socket (one endpoint, offset 0, so a non-empty list) the first call lands
back on the initial offset. -/
theorem c2_counterexample :
    ¬ ((getAddress sampleC2).1 =
         sampleC2.endpoints.get?
           ((sampleC2.endpointOffset + 1) % sampleC2.endpoints.length) ∧
       (getAddress sampleC2).2.endpointOffset ≠ sampleC2.endpointOffset) := by
  decide

/-- C2 (amended): each `getAddress()` call first advances the offset to
(offset + 1) mod N and returns the endpoint there; k successive calls land
on (offset + k) mod N, so N successive calls visit N pairwise distinct
offsets; and whenever N ≥ 2 the first call's offset differs from the
initial one (for N = 1 it coincides with it). -/
theorem c2_getAddress_round_robin (c : ChatSocket)
    (h : c.endpointOffset < c.endpoints.length) :
    (getAddress c).2.endpointOffset = (c.endpointOffset + 1) % c.endpoints.length ∧
    (getAddress c).1 =
      c.endpoints.get? ((c.endpointOffset + 1) % c.endpoints.length) ∧
    (∀ k, offsetAfter c.endpoints.length c.endpointOffset k =
      (c.endpointOffset + k) % c.endpoints.length) ∧
    (∀ i j, i < c.endpoints.length → j < c.endpoints.length →
      offsetAfter c.endpoints.length c.endpointOffset (i + 1) =
        offsetAfter c.endpoints.length c.endpointOffset (j + 1) → i = j) ∧
    (2 ≤ c.endpoints.length →
      (c.endpointOffset + 1) % c.endpoints.length ≠ c.endpointOffset) := by
  refine ⟨?_, ?_, fun k => offsetAfter_eq_mod _ _ h k,
    fun i j hi hj => offsetAfter_inj _ _ h i j hi hj, ?_⟩
  · simp [getAddress, nextOffset_eq_mod _ _ h]
  · simp [getAddress, nextOffset_eq_mod _ _ h]
  · intro hn heq
    by_cases hlt : c.endpointOffset + 1 < c.endpoints.length
    · rw [Nat.mod_eq_of_lt hlt] at heq
      omega
    · have he : c.endpointOffset + 1 = c.endpoints.length := by omega
      rw [he, Nat.mod_self] at heq
      omega

theorem c2_getAddress_round_robin_witness :
    (({ sampleC2 with endpoints := ["wss://a", "wss://b"] } : ChatSocket).endpointOffset <
      ({ sampleC2 with endpoints := ["wss://a", "wss://b"] } : ChatSocket).endpoints.length) ∧
    (getAddress { sampleC2 with endpoints := ["wss://a", "wss://b"] }).2.endpointOffset =
      (({ sampleC2 with endpoints := ["wss://a", "wss://b"] } : ChatSocket).endpointOffset + 1) %
        ({ sampleC2 with endpoints := ["wss://a", "wss://b"] } : ChatSocket).endpoints.length :=
  ⟨by decide,
    (c2_getAddress_round_robin { sampleC2 with endpoints := ["wss://a", "wss://b"] }
      (by decide)).1⟩

/-- C3: the claim that `close()` with no transport emits the closed
notification is false: on the sample socket (no transport) the state does
reach `Closed` but nothing is emitted. -/
theorem c3_counterexample :
    ¬ ((close sampleC3).sock.state = SocketState.Closed ∧
       "closed" ∈ (close sampleC3).emitted) := by
  decide

/-- C3 (amended): `close()` with no transport instance moves the state
straight to `Closed` and clears the reconnect and keepalive timers, but
emits no `closed` notification (that only happens in the close-event
handler's `Closing` branch). -/
theorem c3_close_without_transport (c : ChatSocket) (h : c.socketGen = none) :
    (close c).sock.state = SocketState.Closed ∧
    (close c).reconnectTimerCleared = true ∧
    (close c).pingTimerCleared = true ∧
    (close c).emitted = [] ∧
    (close c).transportCloseRequested = false := by
  simp [close, h]

theorem c3_close_without_transport_witness :
    sampleC3.socketGen = none ∧ (close sampleC3).sock.state = SocketState.Closed :=
  ⟨by decide, (c3_close_without_transport sampleC3 (by decide)).1⟩

/-- C4: a call whose reply does not arrive before the timeout fails with
the timeout outcome and its pending entry is removed from the correlator
(no other entry is touched); a reply carrying that identifier arriving
afterwards emits the no-handler error and invokes no caller's handle. -/
theorem c4_call_timeout_then_late_reply (m : Correlator) (id h : Nat) (e : Bool) :
    (callSettle (repliesSet m id h) id false none).2 = CallOutcome.timedOut ∧
    (callSettle (repliesSet m id h) id false none).1 id = none ∧
    (∀ k, k ≠ id → (callSettle (repliesSet m id h) id false none).1 k = m k) ∧
    (parsePacket (callSettle (repliesSet m id h) id false none).1
        (InFrame.parsed (Packet.reply id e))).emitted =
      [Emitted.debugIn (Packet.reply id e), Emitted.errorNoHandler] ∧
    (parsePacket (callSettle (repliesSet m id h) id false none).1
        (InFrame.parsed (Packet.reply id e))).handleInvoked = none := by
  have hdel : (callSettle (repliesSet m id h) id false none).1 id = none := by
    simp [callSettle, repliesDelete]
  refine ⟨rfl, hdel, ?_, ?_, ?_⟩
  · intro k hk
    simp [callSettle, repliesDelete, repliesSet, hk]
  · simp [parsePacket, hdel]
  · simp [parsePacket, hdel]

/-- C7: the claim that a transport close with `autoReconnect` disabled moves
the state to `Idle` is false: on the sample socket (Connected,
autoReconnect off) the handler leaves the state at `Connected`. -/
theorem c7_counterexample :
    sampleC7.state = SocketState.Connected ∧
    sampleC7.autoReconnect = false ∧
    (closeHandler sampleC7).sock.state ≠ SocketState.Idle := by
  decide

/-- C7 (amended): when the transport closes while the state is `Connecting`,
`Connected` or `Reconnecting` and `autoReconnect` is false, the handler
returns with the instance completely unchanged — in particular the state
stays as it was rather than becoming `Idle` — arming no reconnect timer and
emitting nothing. -/
theorem c7_close_no_auto_reconnect (c : ChatSocket)
    (h : c.state = SocketState.Connecting ∨ c.state = SocketState.Connected ∨
      c.state = SocketState.Reconnecting)
    (ha : c.autoReconnect = false) :
    (closeHandler c).sock = c ∧
    (closeHandler c).emitted = [] ∧
    (closeHandler c).reconnectTimerArmed = false ∧
    (closeHandler c).bootedImmediately = false := by
  have h1 : ¬ (c.state = SocketState.Refreshing) := by
    rcases h with h | h | h <;> simp [h]
  have h2 : ¬ (c.state = SocketState.Closing) := by
    rcases h with h | h | h <;> simp [h]
  simp [closeHandler, h1, h2, ha]

theorem c7_close_no_auto_reconnect_witness :
    (sampleC7.state = SocketState.Connecting ∨ sampleC7.state = SocketState.Connected ∨
      sampleC7.state = SocketState.Reconnecting) ∧
    (closeHandler sampleC7).sock = sampleC7 :=
  ⟨by decide, (c7_close_no_auto_reconnect sampleC7 (by decide) (by decide)).1⟩

/-- C8: when the keepalive fires while not connected, `ping()` fails at once
with the timeout error and sends no probe; when connected, the probe is
sent, and a missing pong within `pingTimeout` emits an error and
force-closes the transport, while a pong in time resets the idle timer. -/
theorem c8_ping_behaviour (st : SocketState) (b : Bool)
    (h : st ≠ SocketState.Connected) :
    ping st b =
      { probeSent := false, failedWithTimeout := true, errorEmitted := false
        socketClosed := false, timerReset := false } ∧
    ping SocketState.Connected false =
      { probeSent := true, failedWithTimeout := false, errorEmitted := true
        socketClosed := true, timerReset := false } ∧
    ping SocketState.Connected true =
      { probeSent := true, failedWithTimeout := false, errorEmitted := false
        socketClosed := false, timerReset := true } := by
  refine ⟨?_, by decide, by decide⟩
  simp [ping, h]

theorem c8_ping_behaviour_witness :
    SocketState.Idle ≠ SocketState.Connected ∧
    ping SocketState.Idle true =
      { probeSent := false, failedWithTimeout := true, errorEmitted := false
        socketClosed := false, timerReset := false } :=
  ⟨by decide, (c8_ping_behaviour SocketState.Idle true (by decide)).1⟩

/-- C9: `auth()` while disconnected records the credentials and returns a
handle that settles only via a later `authResult` notification (it has no
rejection path); when the subsequent re-authentication fails, `unSpool`'s
failure branch emits only an error and invokes `close()`, so no
`authResult` ever fires and the handle stays pending. -/
theorem c9_auth_pending_forever (c : ChatSocket) (cid : Nat) (uid : Option Nat)
    (key : Option String) (q : List (String × SpooledMethod))
    (h : isConnected c = false) :
    (authOp c cid uid key).2 = AuthCallResult.pendingOnAuthResult ∧
    (authOp c cid uid key).1.authPacket = some (cid, uid, key) ∧
    unSpool (some (cid, uid, key)) q false =
      [Action.sendPacket (authMethodPacket (cid, uid, key)),
        Action.emitEv "error", Action.closeConn] ∧
    authHandleResolved (unSpool (some (cid, uid, key)) q false) = false := by
  have hc : isConnected { c with authPacket := some (cid, uid, key) } = false := h
  refine ⟨?_, ?_, rfl, ?_⟩
  · simp [authOp, hc]
  · simp [authOp, hc]
  · simp [authHandleResolved, unSpool]

theorem c9_auth_pending_forever_witness :
    isConnected sampleC9 = false ∧
    (authOp sampleC9 7 none none).2 = AuthCallResult.pendingOnAuthResult :=
  ⟨by decide, (c9_auth_pending_forever sampleC9 7 none none [] (by decide)).1⟩

/-- C10: `call()` with `noReply` still registers the pending entry under its
fresh identifier and resolves without removing it; the entry is untouched by
every frame except a reply with that identifier, and only such a matching
reply or the timeout branch deletes it. -/
theorem c10_noreply_entry_persists (m : Correlator) (id h : Nat) (f : InFrame)
    (e : Bool) (hf : ∀ b : Bool, f ≠ InFrame.parsed (Packet.reply id b)) :
    callSettle (repliesSet m id h) id true none =
      (repliesSet m id h, CallOutcome.resolvedNoReply) ∧
    repliesSet m id h id = some h ∧
    (parsePacket (repliesSet m id h) f).replies id = some h ∧
    (parsePacket (repliesSet m id h) (InFrame.parsed (Packet.reply id e))).replies id
      = none ∧
    (callSettle (repliesSet m id h) id false none).1 id = none := by
  have hset : repliesSet m id h id = some h := by simp [repliesSet]
  refine ⟨rfl, hset, ?_, ?_, ?_⟩
  · cases f with
    | binaryFrame => simp [parsePacket, hset]
    | malformed => simp [parsePacket, hset]
    | parsed p =>
        cases p with
        | reply id' b =>
            have hne : id' ≠ id := by
              intro hcontra
              exact hf b (by rw [hcontra])
            cases hm : repliesSet m id h id' with
            | none => simp [parsePacket, hm, hset]
            | some h' =>
                simp [parsePacket, hm, repliesDelete, hset, Ne.symm hne]
        | event name data => simp [parsePacket, hset]
        | unknown t => simp [parsePacket, hset]
  · simp [parsePacket, hset, repliesDelete]
  · simp [callSettle, repliesDelete]

theorem c10_noreply_entry_persists_witness :
    (∀ b : Bool, InFrame.parsed (Packet.event "x" 0) ≠
      InFrame.parsed (Packet.reply 1 b)) ∧
    (parsePacket (repliesSet (fun _ => none) 1 5)
      (InFrame.parsed (Packet.event "x" 0))).replies 1 = some 5 :=
  ⟨by decide,
    (c10_noreply_entry_persists (fun _ => none) 1 5
      (InFrame.parsed (Packet.event "x" 0)) false (by decide)).2.2.1⟩

theorem queueSet_keys (q : List (String × SpooledMethod)) (k : String) (v : SpooledMethod) :
    (queueSet q k v).map Prod.fst =
      if k ∈ q.map Prod.fst then q.map Prod.fst else q.map Prod.fst ++ [k] := by
  induction q with
  | nil => simp [queueSet]
  | cons e rest ih =>
      obtain ⟨k', v'⟩ := e
      by_cases hk : k' = k
      · subst hk
        simp [queueSet]
      · have hne : k ≠ k' := fun hh => hk hh.symm
        by_cases hmem : k ∈ rest.map Prod.fst
        · simp [queueSet, hk, ih, hmem, hne]
        · simp [queueSet, hk, ih, hmem, hne]

theorem queueSet_keys_nodup (q : List (String × SpooledMethod)) (k : String)
    (v : SpooledMethod) (h : (q.map Prod.fst).Nodup) :
    ((queueSet q k v).map Prod.fst).Nodup := by
  rw [queueSet_keys]
  by_cases hmem : k ∈ q.map Prod.fst
  · simpa [hmem] using h
  · simp only [hmem, if_false]
    refine List.nodup_append.mpr ⟨h, List.nodup_singleton k, fun a ha hb => ?_⟩
    have ha2 : a = k := by simpa using hb
    subst ha2
    exact hmem ha

theorem mem_keys_queueSet (q : List (String × SpooledMethod)) (k : String)
    (v : SpooledMethod) : k ∈ (queueSet q k v).map Prod.fst := by
  rw [queueSet_keys]
  by_cases hmem : k ∈ q.map Prod.fst <;> simp [hmem]

theorem queueSet_queueSet (q : List (String × SpooledMethod)) (k : String)
    (v w : SpooledMethod) : queueSet (queueSet q k v) k w = queueSet q k w := by
  induction q with
  | nil => simp [queueSet]
  | cons e rest ih =>
      obtain ⟨k', v'⟩ := e
      by_cases hk : k' = k
      · subst hk
        simp [queueSet]
      · simp [queueSet, hk, ih]

theorem queueLookup_queueSet (q : List (String × SpooledMethod)) (k : String)
    (v : SpooledMethod) : queueLookup (queueSet q k v) k = some v := by
  induction q with
  | nil => simp [queueSet, queueLookup]
  | cons e rest ih =>
      obtain ⟨k', v'⟩ := e
      by_cases hk : k' = k
      · subst hk
        simp [queueSet, queueLookup]
      · simp [queueSet, queueLookup, hk, ih]

theorem mem_queueSet_self (q : List (String × SpooledMethod)) (k : String)
    (v : SpooledMethod) : (k, v) ∈ queueSet q k v := by
  induction q with
  | nil => simp [queueSet]
  | cons e rest ih =>
      obtain ⟨k', v'⟩ := e
      by_cases hk : k' = k
      · subst hk
        simp [queueSet]
      · rw [queueSet, if_neg hk]
        exact List.mem_cons_of_mem _ ih

theorem resolves_queueSet_subset (q : List (String × SpooledMethod)) (k : String)
    (v : SpooledMethod) (x : Nat)
    (hx : x ∈ (queueSet q k v).map (fun e => e.2.resolveId)) :
    x ∈ q.map (fun e => e.2.resolveId) ∨ x = v.resolveId := by
  induction q with
  | nil =>
      simp [queueSet] at hx
      exact Or.inr hx
  | cons e rest ih =>
      obtain ⟨k', v'⟩ := e
      by_cases hk : k' = k
      · subst hk
        simp [queueSet] at hx
        rcases hx with hx | hx
        · exact Or.inr hx
        · exact Or.inl (by simpa using Or.inr hx)
      · rw [queueSet, if_neg hk] at hx
        simp only [List.map_cons, List.mem_cons] at hx
        rcases hx with hx | hx
        · exact Or.inl (by simp [hx])
        · rcases ih hx with h1 | h1
          · exact Or.inl (by simpa using Or.inr h1)
          · exact Or.inr h1

theorem sendsOf_spoolFlush (q : List (String × SpooledMethod)) :
    sendsOf (spoolFlushActions q) = q.map (fun e => e.2.data) := by
  induction q with
  | nil => simp [spoolFlushActions, sendsOf]
  | cons e rest ih =>
      obtain ⟨k, v⟩ := e
      simp only [sendsOf] at ih
      simp [spoolFlushActions, sendsOf, ih]

theorem resolvesOf_spoolFlush (q : List (String × SpooledMethod)) :
    resolvesOf (spoolFlushActions q) = q.map (fun e => e.2.resolveId) := by
  induction q with
  | nil => simp [spoolFlushActions, resolvesOf]
  | cons e rest ih =>
      obtain ⟨k, v⟩ := e
      simp only [resolvesOf] at ih
      simp [spoolFlushActions, resolvesOf, ih]

theorem applyActions_spoolFlush (q : List (String × SpooledMethod)) :
    applyActions q (spoolFlushActions q) = [] := by
  induction q with
  | nil => simp [spoolFlushActions, applyActions]
  | cons e rest ih =>
      obtain ⟨k, v⟩ := e
      simp only [applyActions] at ih
      simp [spoolFlushActions, applyActions, applyAction, queueDelete, ih]

theorem connected_not_mem_spoolFlush (q : List (String × SpooledMethod)) :
    Action.emitEv "connected" ∉ spoolFlushActions q := by
  induction q with
  | nil => simp [spoolFlushActions]
  | cons e rest ih =>
      obtain ⟨k, v⟩ := e
      simp [spoolFlushActions, ih]

/-- C5: the spool queue keeps at most one entry per method name; a second
`send` of the same method while disconnected overwrites the first entry's
payload and resolution handle, so the flush sends exactly the queued
entries (one packet per entry, here the second payload) and invokes exactly
the surviving handles (the second one; the overwritten first handle is
never invoked). -/
theorem c5_spool_overwrite (c : ChatSocket) (m : String) (a1 a2 : CallArgsData)
    (r1 r2 : Nat) (hconn : isConnected c = false) (hm : m ≠ "auth")
    (hwf : (c.queue.map Prod.fst).Nodup)
    (hr1 : r1 ∉ c.queue.map (fun e => e.2.resolveId)) (hr12 : r1 ≠ r2) :
    let q2 := ((send ((send c ⟨m, a1⟩ r1 false).sock) ⟨m, a2⟩ r2 false).sock).queue
    q2 = queueSet c.queue m ⟨r2, ⟨m, a2⟩⟩ ∧
    (q2.map Prod.fst).Nodup ∧
    (q2.map Prod.fst).count m = 1 ∧
    queueLookup q2 m = some ⟨r2, ⟨m, a2⟩⟩ ∧
    sendsOf (spoolFlushActions q2) = q2.map (fun e => e.2.data) ∧
    resolvesOf (spoolFlushActions q2) = q2.map (fun e => e.2.resolveId) ∧
    r2 ∈ q2.map (fun e => e.2.resolveId) ∧
    r1 ∉ q2.map (fun e => e.2.resolveId) := by
  intro q2
  have h1 : (send c ⟨m, a1⟩ r1 false).sock =
      { c with queue := queueSet c.queue m ⟨r1, ⟨m, a1⟩⟩ } := by
    simp [send, hconn, hm]
  have hconn2 : isConnected { c with queue := queueSet c.queue m ⟨r1, ⟨m, a1⟩⟩ } = false := by
    simpa [isConnected] using hconn
  have h2 : q2 = queueSet c.queue m ⟨r2, ⟨m, a2⟩⟩ := by
    show ((send ((send c ⟨m, a1⟩ r1 false).sock) ⟨m, a2⟩ r2 false).sock).queue = _
    rw [h1]
    simp [send, hconn2, hm, queueSet_queueSet]
  refine ⟨h2, ?_, ?_, ?_, sendsOf_spoolFlush q2, resolvesOf_spoolFlush q2, ?_, ?_⟩
  · rw [h2]
    exact queueSet_keys_nodup _ _ _ hwf
  · rw [h2]
    exact List.count_eq_one_of_mem (queueSet_keys_nodup _ _ _ hwf) (mem_keys_queueSet _ _ _)
  · rw [h2]
    exact queueLookup_queueSet _ _ _
  · rw [h2]
    exact List.mem_map_of_mem (fun e => e.2.resolveId) (mem_queueSet_self _ _ _)
  · rw [h2]
    intro hx
    rcases resolves_queueSet_subset _ _ _ _ hx with h3 | h3
    · exact hr1 h3
    · exact hr12 h3

theorem c5_spool_overwrite_witness :
    isConnected sampleC5 = false ∧
    queueLookup
      ((send ((send sampleC5 ⟨"msg", CallArgsData.plain [1]⟩ 1 false).sock)
        ⟨"msg", CallArgsData.plain [2]⟩ 2 false).sock).queue "msg" =
      some ⟨2, ⟨"msg", CallArgsData.plain [2]⟩⟩ :=
  ⟨by decide,
    (c5_spool_overwrite sampleC5 "msg" (CallArgsData.plain [1]) (CallArgsData.plain [2])
      1 2 (by decide) (by decide) (by decide) (by decide) (by decide)).2.2.2.1⟩

/-- C6: after a successful handshake with saved credentials, the outbound
packets are the re-auth request first, then every spooled entry's payload in
insertion order; each entry's handle is invoked and each entry removed; and
the one `connected` emission happens only once the queue has been fully
drained. -/
theorem c6_unspool_flush_order (ap : Nat × Option Nat × Option String)
    (q : List (String × SpooledMethod)) :
    sendsOf (unSpool (some ap) q true) =
      authMethodPacket ap :: q.map (fun e => e.2.data) ∧
    resolvesOf (unSpool (some ap) q true) = q.map (fun e => e.2.resolveId) ∧
    applyActions q (unSpool (some ap) q true) = [] ∧
    ∃ pre, unSpool (some ap) q true = pre ++ [Action.emitEv "connected"] ∧
      applyActions q pre = [] ∧ Action.emitEv "connected" ∉ pre := by
  have hs := sendsOf_spoolFlush q
  have hrv := resolvesOf_spoolFlush q
  have hap := applyActions_spoolFlush q
  simp only [sendsOf] at hs
  simp only [resolvesOf] at hrv
  simp only [applyActions] at hap
  refine ⟨?_, ?_, ?_, ?_⟩
  · simp [unSpool, sendPackets, sendsOf, hs]
  · simp [unSpool, sendPackets, resolvesOf, hrv]
  · simp [unSpool, sendPackets, applyActions, applyAction, hap]
  · refine ⟨Action.sendPacket (authMethodPacket ap) :: Action.emitEv "authResult" ::
      (spoolFlushActions q ++ [Action.setStateConnected]), ?_, ?_, ?_⟩
    · simp [unSpool, sendPackets]
    · simp [applyActions, applyAction, hap]
    · simp [connected_not_mem_spoolFlush q]

end MixerChat
